import Mathlib

/-!
# Verification of the gridcast-renewables computational core

Shallow embedding of the statistics engine (`src/lib/utils/atmosphericResearch.ts`),
the solar model (`src/lib/models/solarModel.ts`) and the wind model
(`src/lib/models/windModel.ts`), with theorems settling the frozen claims.

Modelling conventions:
* JavaScript numbers are embedded as exact rationals (`ℚ`); computations that the
  source performs with `Math.sqrt`, `Math.pow` with fractional exponents or
  `Math.exp` are embedded over `ℝ` (`Real.sqrt`, `Real.rpow`, `Real.exp`).
* A present weather-field value is a `JsVal`: a finite number, `NaN`, or
  `null` (a key present with value `undefined` behaves like an absent key
  under every guard of the source, see `JsVal`).  A variable series handed to
  the statistics engine is a `List (Option ℚ)` in which `none` is the
  engine's uniform missing/`NaN` marker (its validity filters treat `null`,
  `undefined` and `NaN` identically).  An output number that can be `NaN` in
  JavaScript — the quality percentages, and forecast power/capacity under a
  present-`NaN` temperature or cloud cover — is `Option`-valued, `none`
  standing for `NaN`.
* Lean's total division (`x / 0 = 0`) is used where the source divides; at each
  such site a comment records the JavaScript result (`NaN`/`±Infinity`) and how
  the source's own `isFinite` guards collapse it to the same value the embedding
  produces, or an explicit branch reproduces the JavaScript outcome.
* A thrown `Error` is embedded as `Except.error` of its message.
-/

/-- Severity buckets of `AnomalyDetection` (src/types/index.ts). -/
inductive Severity where
  | low | medium | high | extreme
deriving DecidableEq, Repr

/-- Trend classification of `TrendAnalysis` (src/types/index.ts). -/
inductive TrendKind where
  | increasing | decreasing | stable
deriving DecidableEq, Repr

/-- A present JavaScript field value: a finite number, `NaN`, or `null`.
A key present with value `undefined` is modelled as an absent key: every
`!== undefined` guard and every numeric filter in the source treats the two
identically; the only observable difference, `Object.keys` registration in
the quality report's `variableCompleteness`, is never read back by any
computation. -/
inductive JsVal where
  | num (q : ℚ)
  | nan
  | null
deriving DecidableEq, Repr

/-- Source `HourlyWeatherData` (src/types/index.ts): a timestamp plus the
record's present named numeric-typed fields with their values, in insertion
order; a key absent from the list is absent from the object.  The
non-numeric keys `time`, `dataQuality`, `missingDataFlags` are kept out of
`fields` (every numeric loop in the source skips them). -/
structure HourlyWeatherData where
  time : String
  fields : List (String × JsVal)
deriving DecidableEq, Repr

/-- A field read as a finite number: `some q` exactly when the key is
present with a finite numeric value.  This is the view of the source's
validity filters (`v !== null && v !== undefined && !isNaN(v)`), of
`extractVariable` (whose `typeof v === "number" ? v : NaN` keeps a present
`NaN`, which is again `none` in the `Option ℚ` series representation), and
of the guards `x !== undefined && x > 0` (the strict comparison is false for
`null` and `NaN`). -/
def getField (r : HourlyWeatherData) (key : String) : Option ℚ :=
  match r.fields.lookup key with
  | some (JsVal.num q) => some q
  | _ => none

/-- A field read through a bare `!== undefined` guard: the present value,
whatever it is. -/
def presentField (r : HourlyWeatherData) (key : String) : Option JsVal :=
  r.fields.lookup key

/-- Source `SolarAsset` (src/types/index.ts). -/
structure SolarAsset where
  dcCapacity : ℚ
  systemLosses : Option ℚ
  tilt : Option ℚ := none
  azimuth : Option ℚ := none
deriving DecidableEq, Repr

/-- Source `WindAsset` (src/types/index.ts). -/
structure WindAsset where
  ratedCapacity : ℚ
  hubHeight : ℚ
  cutInSpeed : Option ℚ := none
  ratedSpeed : Option ℚ := none
  cutOutSpeed : Option ℚ := none
deriving DecidableEq, Repr

/-- Source `PowerOutput` (src/types/index.ts) as JavaScript produces it:
`power` and `capacity` live in `ℝ` because the wind pipeline passes through
`Math.pow` with exponent 0.14, and either field can be `NaN` (`none`) when a
present-`NaN` input reaches the computation. -/
structure JsPowerOutput where
  time : String
  power : Option ℝ
  capacity : Option ℝ

/-- A forecast output record with both fields numeric: the value of the
`NaN`-free case of `JsPowerOutput`, used to compare `NaN`-free outputs. -/
structure PowerOutput where
  time : String
  power : ℝ
  capacity : ℝ

/-- Source `Location` (src/types/index.ts). -/
structure Location where
  address : Option String := none
  latitude : ℚ
  longitude : ℚ

/-- Source `AtmosphericStatistics` (src/types/index.ts).  All fields are rational
except `stdDev`, which the source obtains with `Math.sqrt`. -/
structure AtmosphericStatistics where
  mean : ℚ
  median : ℚ
  stdDev : ℝ
  min : ℚ
  max : ℚ
  percentile25 : ℚ
  percentile75 : ℚ
  percentile95 : ℚ
  count : ℕ
  missingCount : ℕ

/-! ## calculateStatistics (src/lib/utils/atmosphericResearch.ts, lines 22-66) -/

/-- Source `values.filter((v) => v !== null && v !== undefined && !isNaN(v))`. -/
def validValues (values : List (Option ℚ)) : List ℚ :=
  values.filterMap id

/-- Source `[...validValues].sort((a, b) => a - b)`: the ascending sort. -/
def sortedValid (values : List (Option ℚ)) : List ℚ :=
  (validValues values).mergeSort (· ≤ ·)

/-- The accumulator `validValues.reduce((sum, v) => sum + v, 0) / validValues.length`. -/
def listMean (l : List ℚ) : ℚ :=
  l.sum / l.length

/-- Source `validValues.reduce((sum, v) => sum + Math.pow(v - mean, 2), 0) / validValues.length`. -/
def listVariance (l : List ℚ) : ℚ :=
  (l.map (fun v => (v - listMean l) ^ 2)).sum / l.length

/-- The inner helper `getPercentile` of `calculateStatistics`:
`index = Math.ceil((p / 100) * sorted.length) - 1; sorted[Math.max(0, index)]`.
Only called with a non-empty `sorted`, so the JavaScript index is in bounds;
`getD` with default 0 embeds the in-bounds access. -/
def percentileOf (sorted : List ℚ) (p : ℚ) : ℚ :=
  let index : ℤ := ⌈p / 100 * (sorted.length : ℚ)⌉ - 1
  sorted.getD (max 0 index).toNat 0

/-- Source `calculateStatistics` (lines 22-66).  The input models the `number[]`
argument whose entries may be `null`/`undefined`/`NaN` (= `none`). -/
noncomputable def calculateStatistics (values : List (Option ℚ)) :
    AtmosphericStatistics :=
  let vv := validValues values
  let sorted := sortedValid values
  if vv.length = 0 then
    { mean := 0, median := 0, stdDev := 0, min := 0, max := 0
      percentile25 := 0, percentile75 := 0, percentile95 := 0
      count := 0, missingCount := values.length }
  else
    { mean := listMean vv
      median := sorted.getD (sorted.length / 2) 0
      stdDev := Real.sqrt (listVariance vv)
      min := sorted.getD 0 0
      max := sorted.getD (sorted.length - 1) 0
      percentile25 := percentileOf sorted 25
      percentile75 := percentileOf sorted 75
      percentile95 := percentileOf sorted 95
      count := vv.length
      missingCount := values.length - vv.length }

/-! ## Solar model (src/lib/models/solarModel.ts) -/

/-- Source `calculateSolarPower` (lines 31-44). -/
def calculateSolarPower (irradiance dcCapacity : ℚ) (systemLosses : ℚ := 14) : ℚ :=
  let G_STC : ℚ := 1000
  let systemEfficiency := (100 - systemLosses) / 100
  let power := irradiance / G_STC * dcCapacity * systemEfficiency
  max 0 power

/-- Source `applyTemperatureCorrection` (lines 65-81). -/
def applyTemperatureCorrection (basePower ambientTemp irradiance : ℚ)
    (tempCoefficient : ℚ := -4/1000) : ℚ :=
  let T_STC : ℚ := 25
  let NOCT : ℚ := 45
  let cellTemp := ambientTemp + (NOCT - 20) * (irradiance / 800)
  let tempFactor := 1 + tempCoefficient * (cellTemp - T_STC)
  basePower * tempFactor

/-- Source `adjustIrradianceForClouds` (lines 93-101). -/
def adjustIrradianceForClouds (irradiance cloudCover : ℚ) : ℚ :=
  let cloudFactor := 1 - 8/10 * cloudCover / 100
  irradiance * cloudFactor

/-- The body of the `weatherData.map` callback of `generateSolarForecast`
(lines 114-142) up to the `power` variable, as the JavaScript value computed
there: `none` is `NaN`.  The guard `hour.solarIrradiance !== undefined &&
hour.solarIrradiance > 0` passes exactly for a present positive number.  The
bare `hour.cloudCover !== undefined` and `hour.temperature !== undefined`
guards also admit present `null` and `NaN` values: a `null` coerces to 0 in
the arithmetic of `adjustIrradianceForClouds` (`0.8 * null / 100 = 0`) and
`applyTemperatureCorrection` (`null + 25 * (adj / 800)` drops the ambient
term), embedded by passing 0; a `NaN` makes the adjusted irradiance or the
corrected power `NaN` (`Math.max(0, NaN)` is `NaN`, so `calculateSolarPower`
forwards it).  Passing the absent `asset.systemLosses` to
`calculateSolarPower` selects the declared default 14 (`getD 14`). -/
def solarHourPowerJs (asset : SolarAsset) (hour : HourlyWeatherData) :
    Option ℚ :=
  match getField hour "solarIrradiance" with
  | some irr =>
    if 0 < irr then
      let adjustedIrradiance : Option ℚ :=
        match presentField hour "cloudCover" with
        | some (JsVal.num cc) => some (adjustIrradianceForClouds irr cc)
        | some JsVal.null => some (adjustIrradianceForClouds irr 0)
        | some JsVal.nan => none
        | none => some irr
      match adjustedIrradiance with
      | some adj =>
        let power := calculateSolarPower adj asset.dcCapacity
          (asset.systemLosses.getD 14)
        match presentField hour "temperature" with
        | some (JsVal.num t) => some (applyTemperatureCorrection power t adj)
        | some JsVal.null => some (applyTemperatureCorrection power 0 adj)
        | some JsVal.nan => none
        | none => some power
      | none => none
    else some 0
  | none => some 0

/-- The rational value of the per-hour solar power: the JavaScript value
whenever `solarHourPowerJs` is a number; where the JavaScript value is `NaN`
(a present `NaN` cloud cover or temperature on the positive-irradiance path)
this projection returns the placeholder 0. -/
def solarHourPower (asset : SolarAsset) (hour : HourlyWeatherData) : ℚ :=
  (solarHourPowerJs asset hour).getD 0

/-- The full `weatherData.map` callback of `generateSolarForecast`
(lines 114-150): the per-hour power followed by the `capacity` computation
`asset.dcCapacity > 0 ? (power / asset.dcCapacity) * 100 : 0` and the
clamped output record.  When the per-hour power is `NaN`, so are
`Math.max(0, NaN)`, `(NaN / dcCapacity) * 100` and its clamp — except that a
non-positive `dcCapacity` takes the ternary else-branch and stores the
number 0 as capacity. -/
def solarForecastHourJs (asset : SolarAsset) (hour : HourlyWeatherData) :
    JsPowerOutput :=
  match solarHourPowerJs asset hour with
  | some power =>
    let capacity : ℚ :=
      if 0 < asset.dcCapacity then power / asset.dcCapacity * 100 else 0
    { time := hour.time
      power := some ((max 0 power : ℚ) : ℝ)
      capacity := some ((min 100 (max 0 capacity) : ℚ) : ℝ) }
  | none =>
    { time := hour.time
      power := none
      capacity := if 0 < asset.dcCapacity then none else some 0 }

/-- The numeric-valued output record built from `solarHourPower`: it agrees
field-wise with `solarForecastHourJs` on every hour whose power computation
is `NaN`-free (proved below), and is used to compare such outputs. -/
def solarForecastHour (asset : SolarAsset) (hour : HourlyWeatherData) :
    PowerOutput :=
  let power := solarHourPower asset hour
  let capacity : ℚ :=
    if 0 < asset.dcCapacity then power / asset.dcCapacity * 100 else 0
  { time := hour.time
    power := ((max 0 power : ℚ) : ℝ)
    capacity := ((min 100 (max 0 capacity) : ℚ) : ℝ) }

/-- Source `generateSolarForecast` (lines 110-152).  The function is total:
the solar model contains no `throw`. -/
def generateSolarForecast (asset : SolarAsset)
    (weatherData : List HourlyWeatherData) : List JsPowerOutput :=
  weatherData.map (solarForecastHourJs asset)

/-! ## Wind model (src/lib/models/windModel.ts) -/

/-- Source `extrapolateWindSpeed` (lines 34-45): throws
`Error("Heights must be positive values")` unless both heights are positive;
otherwise `v · (targetHeight / referenceHeight) ^ alpha` with `Math.pow`
embedded as `Real.rpow` (the guarded ratio is positive, where both agree). -/
noncomputable def extrapolateWindSpeed (windSpeedAtReference referenceHeight
    targetHeight : ℝ) (alpha : ℝ := 0.14) : Except String ℝ :=
  if referenceHeight ≤ 0 ∨ targetHeight ≤ 0 then
    .error "Heights must be positive values"
  else
    .ok (windSpeedAtReference * (targetHeight / referenceHeight) ^ alpha)

/-- Source `calculateWindPower` (lines 72-104): the four-region power curve with
defaulted thresholds `cutIn = 3`, `rated = 12`, `cutOut = 25`. -/
noncomputable def calculateWindPower (windSpeed : ℝ) (asset : WindAsset) : ℝ :=
  let cutInSpeed : ℝ := (asset.cutInSpeed.getD 3 : ℚ)
  let ratedSpeed : ℝ := (asset.ratedSpeed.getD 12 : ℚ)
  let cutOutSpeed : ℝ := (asset.cutOutSpeed.getD 25 : ℚ)
  if windSpeed < cutInSpeed then 0
  else if windSpeed > cutOutSpeed then 0
  else if windSpeed ≥ ratedSpeed then (asset.ratedCapacity : ℝ)
  else
    let power := (asset.ratedCapacity : ℝ) *
      ((windSpeed ^ 3 - cutInSpeed ^ 3) / (ratedSpeed ^ 3 - cutInSpeed ^ 3))
    max 0 (min (asset.ratedCapacity : ℝ) power)

/-- Source `applyAirDensityCorrection` (lines 131-152).  In the source both
`temperature` and `altitude` are optional; `generateWindForecast` only ever
passes a temperature.  At `temperature = -273.15` the JavaScript ratio is
`Infinity`; the embedding's total division returns 0 there (no claim exercises
that point). -/
noncomputable def applyAirDensityCorrection (basePower : ℝ)
    (temperature : Option ℚ) (altitude : Option ℚ := none) : ℝ :=
  let ratio1 : ℝ := match temperature with
    | some t => 288.15 / ((t : ℝ) + 273.15)
    | none => 1
  let densityRatio : ℝ := match altitude with
    | some h => if (0 : ℚ) < h then ratio1 * Real.exp (-(h : ℝ) / 8500) else ratio1
    | none => ratio1
  basePower * densityRatio

/-- The body of the `weatherData.map` callback of `generateWindForecast`
(lines 167-185) up to the `power` variable, as the JavaScript value computed
there: `none` is `NaN`.  The power is 0 unless
`hour.windSpeed !== undefined && hour.windSpeed > 0` (a present positive
number), in which case the wind speed is extrapolated to hub height (which
may throw) and converted through the power curve.  The bare
`hour.temperature !== undefined` guard also admits present `null` and `NaN`
temperatures: a `null` coerces to 0 inside `applyAirDensityCorrection`
(`null + 273.15 = 273.15`), embedded by passing 0; a `NaN` makes the
corrected power `NaN`. -/
noncomputable def windHourPower (asset : WindAsset) (hour : HourlyWeatherData)
    (referenceHeight : ℝ) : Except String (Option ℝ) :=
  match getField hour "windSpeed" with
  | some ws =>
    if 0 < ws then do
      let windSpeedAtHub ← extrapolateWindSpeed (ws : ℝ) referenceHeight
        (asset.hubHeight : ℝ)
      let power := calculateWindPower windSpeedAtHub asset
      pure (match presentField hour "temperature" with
        | some (JsVal.num t) => some (applyAirDensityCorrection power (some t))
        | some JsVal.null => some (applyAirDensityCorrection power (some 0))
        | some JsVal.nan => none
        | none => some power)
    else pure (some 0)
  | none => pure (some 0)

/-- The full `weatherData.map` callback of `generateWindForecast`
(lines 167-194): the per-hour power followed by the `capacity` computation
`asset.ratedCapacity > 0 ? (power / asset.ratedCapacity) * 100 : 0` and the
clamped output record.  When the power is `NaN`, so are `Math.max(0, NaN)`
and the clamped capacity — except that a non-positive `ratedCapacity` takes
the ternary else-branch and stores the number 0 as capacity. -/
noncomputable def windForecastHour (asset : WindAsset) (referenceHeight : ℝ)
    (hour : HourlyWeatherData) : Except String JsPowerOutput := do
  let power ← windHourPower asset hour referenceHeight
  match power with
  | some p =>
    let capacity : ℝ :=
      if 0 < asset.ratedCapacity then p / (asset.ratedCapacity : ℝ) * 100
      else 0
    pure { time := hour.time
           power := some (max 0 p)
           capacity := some (min 100 (max 0 capacity)) }
  | none =>
    pure { time := hour.time
           power := none
           capacity := if 0 < asset.ratedCapacity then none else some 0 }

/-- Source `generateWindForecast` (lines 162-195).  A throw escaping the
`.map` callback aborts the whole call with the thrown error, which `mapM`
over `Except` reproduces. -/
noncomputable def generateWindForecast (asset : WindAsset)
    (weatherData : List HourlyWeatherData) (referenceHeight : ℝ := 10) :
    Except String (List JsPowerOutput) :=
  weatherData.mapM (windForecastHour asset referenceHeight)

/-! ## Correlation (src/lib/utils/atmosphericResearch.ts, lines 71-176) -/

/-- Source `normalCDF` (lines 167-176). -/
noncomputable def normalCDF (z : ℝ) : ℝ :=
  let t := 1 / (1 + 0.2316419 * |z|)
  let d := 0.3989423 * Real.exp (-z * z / 2)
  let prob := d * t *
    (0.3193815 + t * (-0.3565638 + t * (1.781478 + t * (-1.821256 + t * 1.330274))))
  if z > 0 then 1 - prob else prob

/-- Source `studentTCDF` (lines 153-162); `Math.pow(x, df / 2)` is `Real.rpow`. -/
noncomputable def studentTCDF (t : ℝ) (df : ℕ) : ℝ :=
  if df > 30 then normalCDF t
  else
    let x := (df : ℝ) / ((df : ℝ) + t * t)
    1 - 0.5 * x ^ ((df : ℝ) / 2)

/-- The `{ r, pValue }` result of `pearsonCorrelation`. -/
structure PearsonResult where
  r : ℝ
  pValue : ℝ

/-- The pairwise-complete observations of `pearsonCorrelation` (lines 109-117):
`x.slice(0, n).map((xi, i) => [xi, y[i]]).filter(both numeric)` with
`n = min(x.length, y.length)`, which `zip` reproduces. -/
def validPairs (x y : List (Option ℚ)) : List (ℚ × ℚ) :=
  (x.zip y).filterMap fun p =>
    match p with
    | (some a, some b) => some (a, b)
    | _ => none

/-- The loop accumulator `numerator` of `pearsonCorrelation` (lines 129-139). -/
def pearsonNumerator (pairs : List (ℚ × ℚ)) : ℚ :=
  let meanX := listMean (pairs.map Prod.fst)
  let meanY := listMean (pairs.map Prod.snd)
  (pairs.map fun p => (p.1 - meanX) * (p.2 - meanY)).sum

/-- The loop accumulator `sumXSquared` of `pearsonCorrelation`. -/
def pearsonSumXSquared (pairs : List (ℚ × ℚ)) : ℚ :=
  let meanX := listMean (pairs.map Prod.fst)
  (pairs.map fun p => (p.1 - meanX) * (p.1 - meanX)).sum

/-- The loop accumulator `sumYSquared` of `pearsonCorrelation`. -/
def pearsonSumYSquared (pairs : List (ℚ × ℚ)) : ℚ :=
  let meanY := listMean (pairs.map Prod.snd)
  (pairs.map fun p => (p.2 - meanY) * (p.2 - meanY)).sum

/-- Source `pearsonCorrelation` (lines 105-148).  When
`sumXSquared * sumYSquared = 0` the source computes `r = 0/0 = NaN`
(`numerator` is 0 by Cauchy-Schwarz) and `t`, `pValue` are `NaN` in turn, and
the final guards `isFinite(r) ? r : 0`, `isFinite(pValue) ? pValue : 1` return
`(0, 1)`; the first branch embeds that.  When `1 - r² = 0` (i.e. `r = ±1`) the
source computes `t = ±Infinity` and `studentTCDF(|t|, df)` evaluates to 1 on
both of its branches, so `pValue = 0`; the inner branch embeds that. -/
noncomputable def pearsonCorrelation (x y : List (Option ℚ)) : PearsonResult :=
  let pairs := validPairs x y
  if pairs.length < 3 then { r := 0, pValue := 1 }
  else
    let numerator := pearsonNumerator pairs
    let sumXSquared := pearsonSumXSquared pairs
    let sumYSquared := pearsonSumYSquared pairs
    if sumXSquared * sumYSquared = 0 then { r := 0, pValue := 1 }
    else
      let r : ℝ := (numerator : ℝ) / Real.sqrt ((sumXSquared : ℝ) * (sumYSquared : ℝ))
      let df := pairs.length - 2
      let pValue : ℝ :=
        if 1 - r ^ 2 = 0 then 0
        else 2 * (1 - studentTCDF |r * Real.sqrt ((df : ℝ) / (1 - r ^ 2))| df)
      { r := r, pValue := pValue }

/-- Source `CorrelationMatrix` (src/types/index.ts); the source field `variables` is
named `variableNames` here because `variables` is a reserved command in Lean. -/
structure CorrelationMatrix where
  variableNames : List String
  matrix : List (List ℝ)
  pValues : List (List ℝ)

/-- Source `calculateCorrelationMatrix` (lines 71-100).  The argument models the
`Record<string, number[]>` as its insertion-ordered entries (JavaScript object
keys are distinct, so positional access equals key lookup). -/
noncomputable def calculateCorrelationMatrix
    (data : List (String × List (Option ℚ))) : CorrelationMatrix :=
  { variableNames := data.map Prod.fst
    matrix := List.ofFn fun i : Fin data.length => List.ofFn fun j : Fin data.length =>
      if i = j then 1.0 else (pearsonCorrelation (data.get i).2 (data.get j).2).r
    pValues := List.ofFn fun i : Fin data.length => List.ofFn fun j : Fin data.length =>
      if i = j then 0 else (pearsonCorrelation (data.get i).2 (data.get j).2).pValue }

/-- Total accessor for an entry of a nested-list matrix (used to state the
matrix claims without embedded bound proofs). -/
def matrixEntry (m : List (List ℝ)) (i j : ℕ) : ℝ :=
  (m.getD i []).getD j 0

/-! ## Trend analysis (src/lib/utils/atmosphericResearch.ts, lines 181-253) -/

/-- Source `TrendAnalysis` (src/types/index.ts); the source field `variable` is named
`variableName` here because `variable` is a reserved command in Lean. -/
structure TrendAnalysis where
  variableName : String
  slope : ℚ
  intercept : ℚ
  rSquared : ℚ
  pValue : ℝ
  trend : TrendKind
  confidence : ℚ

/-- Source `analyzeTrend` (lines 181-253).  `new Date(t).getTime()` is the runtime's
date parser, supplied as the abstract parameter `getTime` (invalid-date `NaN`
results are not modelled).  The unused source accumulator `sumYY` is omitted.
When all x-values coincide (`n·sumXX − sumX² = 0`) the JavaScript `slope` is
`0/0 = NaN`, every downstream quantity is `NaN`, `pValue < 0.05` is false, and
the `isFinite` guards store zeros, `pValue = 1` and `trend = "stable"`; the
explicit degenerate branch embeds that. -/
noncomputable def analyzeTrend (getTime : String → ℚ) (timestamps : List String)
    (values : List (Option ℚ)) (variableName : String) : TrendAnalysis :=
  let firstTime := getTime (timestamps.headD "")
  let x := timestamps.map fun t => (getTime t - firstTime) / (1000 * 3600)
  -- pairs: `x.map((xi, i) => [xi, values[i]]).filter(([xi, yi]) => yi numeric)`;
  -- out-of-range accesses `values[i]` are `undefined` and filtered, so `zip`
  -- reproduces the loop
  let pairs := (x.zip values).filterMap fun p => p.2.map fun yi => (p.1, yi)
  if pairs.length < 3 then
    { variableName := variableName, slope := 0, intercept := 0, rSquared := 0
      pValue := 1, trend := .stable, confidence := 0 }
  else
    let xValues := pairs.map Prod.fst
    let yValues := pairs.map Prod.snd
    let n : ℚ := xValues.length
    let sumX := xValues.sum
    let sumY := yValues.sum
    let sumXY := (pairs.map fun p => p.1 * p.2).sum
    let sumXX := (xValues.map fun v => v * v).sum
    if n * sumXX - sumX * sumX = 0 then
      { variableName := variableName, slope := 0, intercept := 0, rSquared := 0
        pValue := 1, trend := .stable, confidence := 0 }
    else
      let slope := (n * sumXY - sumX * sumY) / (n * sumXX - sumX * sumX)
      let intercept := (sumY - slope * sumX) / n
      let meanY := sumY / n
      let ssTotal : ℚ := (yValues.map fun v => (v - meanY) ^ 2).sum
      let ssResidual : ℚ := (pairs.map fun p => (p.2 - (slope * p.1 + intercept)) ^ 2).sum
      -- ssTotal = 0: JS computes rSquared = 1 − 0/0 = NaN (ssResidual is then
      -- also 0), and the isFinite guard stores 0
      let rSquared : ℚ := if ssTotal = 0 then 0 else 1 - ssResidual / ssTotal
      let seSlope : ℝ := Real.sqrt ((ssResidual : ℝ) / ((n : ℝ) - 2)) /
        Real.sqrt ((sumXX : ℝ) - (sumX : ℝ) * (sumX : ℝ) / (n : ℝ))
      -- seSlope = 0 (exact fit): JS tStat is NaN (slope = 0, pValue guarded
      -- to 1) or ±∞ (studentTCDF evaluates to 1 on both branches, pValue 0)
      let pValue : ℝ :=
        if seSlope = 0 then (if slope = 0 then 1 else 0)
        else 2 * (1 - studentTCDF |(slope : ℝ) / seSlope| (pairs.length - 2))
      let trend : TrendKind :=
        if pValue < 0.05 then (if 0 < slope then .increasing else .decreasing)
        else .stable
      { variableName := variableName, slope := slope, intercept := intercept
        rSquared := rSquared, pValue := pValue, trend := trend
        confidence := rSquared }

/-! ## Anomaly detection (src/lib/utils/atmosphericResearch.ts, lines 258-291) -/

/-- Source `AnomalyDetection` (src/types/index.ts); the source field `variable` is
named `variableName` here (reserved command). -/
structure AnomalyDetection where
  timestamp : String
  variableName : String
  value : ℚ
  expectedValue : ℚ
  deviation : ℝ
  severity : Severity

open scoped Classical in
/-- Source `detectAnomalies` (lines 258-291).  The flag condition is
`Math.abs(value − mean) / stdDev > threshold`.  When `stdDev = 0` the
JavaScript quotient is `NaN` (numerator 0, comparison false for every
threshold) or `+∞` (numerator positive, comparison true for every threshold),
so the condition is `0 < |value − mean|` independent of the threshold; the
`stdDev = 0` branches embed that.  (`stdDev = 0` in fact forces every valid
value to equal the mean, so the positive-numerator branch is unreachable; the
stored `deviation`/`severity` there stand in for the JavaScript `+∞` and the
`"extreme"` bucket it selects.) -/
noncomputable def detectAnomalies (timestamps : List String)
    (values : List (Option ℚ)) (variableName : String) (threshold : ℚ := 3) :
    List AnomalyDetection :=
  let stats := calculateStatistics values
  (List.range values.length).filterMap fun i =>
    match values.getD i none with
    | none => none
    | some value =>
      let num : ℚ := |value - stats.mean|
      let deviation : ℝ := (num : ℝ) / stats.stdDev
      let exceeds : Prop :=
        if stats.stdDev = 0 then 0 < num else deviation > (threshold : ℝ)
      if exceeds then
        let severity : Severity :=
          if stats.stdDev = 0 then .extreme
          else if deviation > 5 then .extreme
          else if deviation > 4 then .high
          else if deviation > 3.5 then .medium
          else .low
        some { timestamp := timestamps.getD i "", variableName := variableName
               value := value, expectedValue := stats.mean
               deviation := deviation, severity := severity }
      else none

/-! ## Data quality report (src/lib/utils/atmosphericResearch.ts, lines 296-383) -/

/-- An entry of `suspiciousValues`; the source field `variable` is named
`variableName` here (reserved command). -/
structure SuspiciousValue where
  timestamp : String
  variableName : String
  value : ℚ
  reason : String
deriving DecidableEq, Repr

/-- Source `DataQualityReport` (src/types/index.ts).  `missingDataPercentage` and
`qualityScore` are `Option ℚ`: `none` models the JavaScript `NaN` these fields
hold when `totalRecords = 0` (division `0/0`, and `Math.max(0, NaN) = NaN`). -/
structure DataQualityReport where
  totalRecords : ℕ
  completeRecords : ℕ
  missingDataPercentage : Option ℚ
  qualityScore : Option ℚ
  variableCompleteness : List (String × ℚ)
  outlierCount : ℕ
  suspiciousValues : List SuspiciousValue

/-- The expected-range table `ranges` (lines 310-317). -/
def ranges (key : String) : Option (ℚ × ℚ) :=
  if key = "temperature" then some (-60, 60)
  else if key = "surfacePressure" then some (800, 1100)
  else if key = "relativeHumidity" then some (0, 100)
  else if key = "windSpeed" then some (0, 100)
  else if key = "solarIrradiance" then some (0, 1500)
  else if key = "precipitation" then some (0, 500)
  else none

/-- The keys skipped by the per-record loop (line 336). -/
def skippedKeys : List String := ["time", "dataQuality", "missingDataFlags"]

/-- A record is complete when every critical variable
(`temperature`, `surfacePressure`, `relativeHumidity`) is numeric
(lines 320-332). -/
def isCompleteRecord (r : HourlyWeatherData) : Bool :=
  ["temperature", "surfacePressure", "relativeHumidity"].all fun varName =>
    (getField r varName).isSome

/-- The suspicious entries one record contributes (lines 347-357): a key
with an expected range and a `value !== null && value !== undefined` outside
it.  A present `null` is excluded by the guard and a present `NaN` fails
both strict comparisons, so only finite numbers are ever flagged, as the
`JsVal.num` pattern embeds. -/
def recordSuspicious (r : HourlyWeatherData) : List SuspiciousValue :=
  r.fields.filterMap fun kv =>
    if kv.1 ∈ skippedKeys then none
    else
      match ranges kv.1, kv.2 with
      | some (lo, hi), JsVal.num value =>
        if value < lo ∨ value > hi then
          some { timestamp := r.time, variableName := kv.1, value := value
                 reason := s!"Out of expected range [{lo}, {hi}]" }
        else none
      | _, _ => none

/-- The keys the `Object.keys(record)` loop registers in
`variableCompleteness` (lines 335-344), deduplicated.  (JavaScript keeps
first-insertion order; the order is irrelevant to every claim.) -/
def qualityLoopKeys (weatherData : List HourlyWeatherData) : List String :=
  ((weatherData.flatMap fun r => r.fields.map Prod.fst).filter
    (fun k => k ∉ skippedKeys)).dedup

/-- Source `generateDataQualityReport` (lines 296-383). -/
def generateDataQualityReport (weatherData : List HourlyWeatherData) :
    DataQualityReport :=
  let totalRecords := weatherData.length
  let completeRecords := (weatherData.filter isCompleteRecord).length
  let suspiciousValues := weatherData.flatMap recordSuspicious
  let variableCompleteness := (qualityLoopKeys weatherData).map fun k =>
    (k, ((weatherData.filter fun r => (getField r k).isSome).length : ℚ) /
      (totalRecords : ℚ) * 100)
  -- totalRecords = 0: both percentages are the JavaScript NaN (= none)
  let missingDataPercentage : Option ℚ :=
    if totalRecords = 0 then none
    else some (((totalRecords : ℚ) - (completeRecords : ℚ)) / (totalRecords : ℚ) * 100)
  let qualityScore : Option ℚ :=
    if totalRecords = 0 then none
    else some (max 0 (100 -
      ((totalRecords : ℚ) - (completeRecords : ℚ)) / (totalRecords : ℚ) * 100 -
      (suspiciousValues.length : ℚ) / (totalRecords : ℚ) * 100))
  { totalRecords := totalRecords
    completeRecords := completeRecords
    missingDataPercentage := missingDataPercentage
    qualityScore := qualityScore
    variableCompleteness := variableCompleteness
    outlierCount := suspiciousValues.length
    suspiciousValues := suspiciousValues.take 50 }

/-! ## Top-level analysis (src/lib/utils/atmosphericResearch.ts, lines 388-492) -/

/-- Source `AtmosphericResearchData` (src/types/index.ts); `statistics` keeps the
insertion-ordered entries of the `Record<string, AtmosphericStatistics>`. -/
structure AtmosphericResearchData where
  location : Location
  timeRangeStart : String
  timeRangeEnd : String
  weatherData : List HourlyWeatherData
  statistics : List (String × AtmosphericStatistics)
  correlations : Option CorrelationMatrix
  trends : List TrendAnalysis
  anomalies : List AnomalyDetection
  dataQuality : DataQualityReport

/-- The `variableKeys` list (lines 411-427). -/
def variableKeys : List String :=
  ["temperature", "surfacePressure", "relativeHumidity", "windSpeed",
   "solarIrradiance", "precipitation", "cloudCover", "dewPoint",
   "apparentTemperature", "seaLevelPressure", "windDirection",
   "directRadiation", "diffuseRadiation", "uvIndex", "visibility"]

/-- The `correlationVars` list (lines 438-444). -/
def correlationVars : List String :=
  ["temperature", "surfacePressure", "relativeHumidity", "windSpeed",
   "solarIrradiance"]

/-- A default record for the (guarded in-bounds) accesses `weatherData[0]` and
`weatherData[length − 1]`. -/
def dfltHour : HourlyWeatherData := { time := "", fields := [] }

/-- Source `generateAtmosphericResearchData` (lines 388-492).  Throws
(`Except.error`) on an empty series; `extractVariable` maps a record to its
numeric field value or `NaN` (= `none`). -/
noncomputable def generateAtmosphericResearchData (getTime : String → ℚ)
    (location : Location) (weatherData : List HourlyWeatherData) :
    Except String AtmosphericResearchData :=
  if weatherData.length = 0 then
    .error "No weather data available for analysis"
  else
    let extractVariable := fun key => weatherData.map fun d => getField d key
    let statistics := (variableKeys.filter fun key =>
        (extractVariable key).any Option.isSome).map fun key =>
      (key, calculateStatistics (extractVariable key))
    let correlationData := (correlationVars.filter fun key =>
        (extractVariable key).any Option.isSome).map fun key =>
      (key, extractVariable key)
    let correlations :=
      if correlationData.length > 1 then
        some (calculateCorrelationMatrix correlationData)
      else none
    let timestamps := weatherData.map (·.time)
    let trends := (["temperature", "surfacePressure", "windSpeed",
        "solarIrradiance"].filter fun key =>
        (extractVariable key).any Option.isSome).map fun key =>
      analyzeTrend getTime timestamps (extractVariable key) key
    let anomalies := (["temperature", "surfacePressure", "windSpeed"].filter
        fun key => (extractVariable key).any Option.isSome).flatMap fun key =>
      detectAnomalies timestamps (extractVariable key) key
    .ok { location := location
          timeRangeStart := (weatherData.headD dfltHour).time
          timeRangeEnd := (weatherData.getD (weatherData.length - 1) dfltHour).time
          weatherData := weatherData
          statistics := statistics
          correlations := correlations
          trends := trends
          anomalies := anomalies
          dataQuality := generateDataQualityReport weatherData }

/-! ## Concrete inputs used by witnesses and counterexamples -/

/-- A location value for concrete instantiations. -/
def loc0 : Location := { latitude := 0, longitude := 0 }

/-- A wind configuration with non-positive capacity and height. -/
def badWindAsset : WindAsset := { ratedCapacity := -1, hubHeight := -1 }

/-- An hour with no wind-speed reading at all. -/
def noWindHour : HourlyWeatherData := { time := "t", fields := [] }

/-- An hour with a positive wind-speed reading. -/
def windyHour : HourlyWeatherData :=
  { time := "w", fields := [("windSpeed", JsVal.num 5)] }

/-- A wind configuration with positive capacity and height. -/
def stdWindAsset : WindAsset := { ratedCapacity := 2, hubHeight := 100 }

/-- A solar configuration with defaulted losses. -/
def stdSolarAsset : SolarAsset := { dcCapacity := 7, systemLosses := none }

/-- A 1 kW solar configuration with defaulted losses. -/
def unitSolarAsset : SolarAsset := { dcCapacity := 1, systemLosses := none }

/-- The all-zero output record. -/
def zeroOut : JsPowerOutput :=
  { time := "t", power := some 0, capacity := some 0 }

/-- An hour carrying a present irradiance value, an optional cloud-cover
value, and no temperature reading. -/
def mkSolarHour (g : ℚ) (cc : Option ℚ) : HourlyWeatherData :=
  { time := "t"
    fields := ("solarIrradiance", JsVal.num g) ::
      (match cc with
       | some c => [("cloudCover", JsVal.num c)]
       | none => []) }

/-- An hour with a present irradiance value and ambient temperature 25 °C. -/
def solarTempHour (g : ℚ) : HourlyWeatherData :=
  { time := "t"
    fields := [("solarIrradiance", JsVal.num g), ("temperature", JsVal.num 25)] }

/-! ## Claim C1 -/

/-- C1, counterexample: on the empty weather series
`generateAtmosphericResearchData` does not return a result — it throws
`Error("No weather data available for analysis")` (src/lib/utils/
atmosphericResearch.ts, lines 392-394), against the claim that the top-level
entry point returns rather than raises on an empty series. -/
theorem C1_counterexample :
    generateAtmosphericResearchData (fun _ => 0) loc0 [] =
      Except.error "No weather data available for analysis" := rfl

/-- C1 (amended): `calculateStatistics` maps any series without a valid value
(in particular the empty series) to the all-zero statistics with
`missingCount` equal to the input length, but the top-level entry point
`generateAtmosphericResearchData` raises (returns the error
"No weather data available for analysis") on the empty series instead of
returning a result. -/
theorem C1_empty_statistics_zero_top_level_throws :
    (∀ values : List (Option ℚ), validValues values = [] →
      calculateStatistics values =
        { mean := 0, median := 0, stdDev := 0, min := 0, max := 0
          percentile25 := 0, percentile75 := 0, percentile95 := 0
          count := 0, missingCount := values.length }) ∧
    (∀ (getTime : String → ℚ) (location : Location),
      generateAtmosphericResearchData getTime location [] =
        Except.error "No weather data available for analysis") := by
  refine ⟨fun values h => ?_, fun _ _ => rfl⟩
  rw [calculateStatistics]
  simp [h]

/-- C1, witness: the amended theorem applied to the all-missing one-sample
series and to the empty series. -/
theorem C1_empty_statistics_zero_top_level_throws_witness :
    calculateStatistics [(none : Option ℚ)] =
      { mean := 0, median := 0, stdDev := 0, min := 0, max := 0
        percentile25 := 0, percentile75 := 0, percentile95 := 0
        count := 0, missingCount := 1 } ∧
    generateAtmosphericResearchData (fun _ => 0) loc0 [] =
      Except.error "No weather data available for analysis" :=
  ⟨C1_empty_statistics_zero_top_level_throws.1 [none] rfl,
   C1_empty_statistics_zero_top_level_throws.2 (fun _ => 0) loc0⟩

/-! ## Claim C3 -/

/-- C3: on the empty weather series `generateDataQualityReport` computes
`missingDataPercentage = ((0 − 0) / 0) · 100 = NaN` and
`qualityScore = Math.max(0, 100 − NaN − NaN) = NaN` (`none` in the embedding),
so the quality score is not a number in [0, 100] there, against the claim
(and the source's own `qualityScore: number; // 0-100` documentation).  The
claimed range does hold for every non-empty series, recorded separately
below. -/
theorem C3_empty_series_quality_score_NaN :
    (generateDataQualityReport []).qualityScore = none ∧
    (generateDataQualityReport []).missingDataPercentage = none :=
  ⟨rfl, rfl⟩

/-- For every non-empty series the quality score is defined and lies in
[0, 100]: the positive-side companion fact to the empty-series failure,
recorded because the claim's range statement is true away from its failing
input. -/
theorem qualityScore_bounds (weatherData : List HourlyWeatherData)
    (h : weatherData ≠ []) :
    ∃ s : ℚ, (generateDataQualityReport weatherData).qualityScore = some s ∧
      0 ≤ s ∧ s ≤ 100 := by
  have hlen : weatherData.length ≠ 0 := by
    simpa [List.length_eq_zero] using h
  rw [generateDataQualityReport]
  simp only [hlen, if_false]
  refine ⟨_, rfl, le_max_left _ _, ?_⟩
  have hcomplete : ((weatherData.filter isCompleteRecord).length : ℚ) ≤
      (weatherData.length : ℚ) := by
    exact_mod_cast List.length_filter_le _ _
  have hn : (0 : ℚ) < (weatherData.length : ℚ) := by
    exact_mod_cast Nat.pos_of_ne_zero hlen
  have hmiss : 0 ≤ ((weatherData.length : ℚ) -
      ((weatherData.filter isCompleteRecord).length : ℚ)) /
      (weatherData.length : ℚ) * 100 := by
    have := sub_nonneg.mpr hcomplete
    positivity
  have hout : 0 ≤ ((weatherData.flatMap recordSuspicious).length : ℚ) /
      (weatherData.length : ℚ) * 100 := by positivity
  rw [max_le_iff]
  constructor
  · linarith
  · linarith

/-! ## Claim C2 -/

/-- Bind of a success in `Except` (definitional). -/
theorem exceptOk_bind {α β : Type} (a : α) (f : α → Except String β) :
    (Except.ok a >>= f) = f a := rfl

/-- Bind of an error in `Except` (definitional). -/
theorem exceptError_bind {α β : Type} (e : String) (f : α → Except String β) :
    ((Except.error e : Except String α) >>= f) = Except.error e := rfl

/-- An hour whose wind speed is not a present positive number contributes
power 0 without touching `extrapolateWindSpeed`. -/
theorem windHourPower_no_wind (asset : WindAsset) (hour : HourlyWeatherData)
    (refH : ℝ) (h : ∀ ws : ℚ, getField hour "windSpeed" = some ws → ws ≤ 0) :
    windHourPower asset hour refH = Except.ok (some 0) := by
  rcases hws : getField hour "windSpeed" with _ | ws
  · simp only [windHourPower, hws]
    rfl
  · simp only [windHourPower, hws]
    rw [if_neg (not_lt.mpr (h ws hws))]
    rfl

/-- With a non-positive hub height, an hour with a positive wind speed makes
the forecast throw from `extrapolateWindSpeed`. -/
theorem windHourPower_bad_height (asset : WindAsset) (hour : HourlyWeatherData)
    (hhub : asset.hubHeight ≤ 0) (ws : ℚ)
    (hws : getField hour "windSpeed" = some ws) (hpos : 0 < ws) :
    windHourPower asset hour 10 =
      Except.error "Heights must be positive values" := by
  have hcast : ((asset.hubHeight : ℚ) : ℝ) ≤ 0 := by exact_mod_cast hhub
  simp only [windHourPower, hws]
  rw [if_pos hpos]
  rw [extrapolateWindSpeed, if_pos (Or.inr hcast)]
  rfl

/-- With a positive hub height (and the default reference height 10) the
per-hour computation never throws. -/
theorem windHourPower_ok_height (asset : WindAsset) (hour : HourlyWeatherData)
    (hhub : 0 < asset.hubHeight) :
    ∃ p : Option ℝ, windHourPower asset hour 10 = Except.ok p := by
  have hcast : (0 : ℝ) < ((asset.hubHeight : ℚ) : ℝ) := by exact_mod_cast hhub
  rcases hws : getField hour "windSpeed" with _ | ws
  · exact ⟨some 0, by simp only [windHourPower, hws]; rfl⟩
  · by_cases hpos : 0 < ws
    · simp only [windHourPower, hws]
      rw [if_pos hpos, extrapolateWindSpeed,
        if_neg (by push_neg; exact ⟨by norm_num, hcast⟩)]
      exact ⟨_, rfl⟩
    · exact ⟨some 0, by simp only [windHourPower, hws]; rw [if_neg hpos]; rfl⟩

/-- A per-hour power that does not throw yields an output record without
throwing. -/
theorem windForecastHour_ok (asset : WindAsset) (refH : ℝ)
    (hour : HourlyWeatherData) (p : Option ℝ)
    (hp : windHourPower asset hour refH = Except.ok p) :
    ∃ o, windForecastHour asset refH hour = Except.ok o := by
  rw [windForecastHour, hp, exceptOk_bind]
  rcases p with _ | q
  · exact ⟨_, rfl⟩
  · exact ⟨_, rfl⟩

/-- Hour-wise success propagates to the whole forecast, one output per
sample. -/
theorem generateWindForecast_ok_of_hours (asset : WindAsset)
    (wd : List HourlyWeatherData)
    (hall : ∀ hour ∈ wd, ∃ p, windHourPower asset hour 10 = Except.ok p) :
    ∃ outs, generateWindForecast asset wd 10 = Except.ok outs ∧
      outs.length = wd.length := by
  revert hall
  induction wd with
  | nil => exact fun _ => ⟨[], rfl, rfl⟩
  | cons h t ih =>
    intro hall
    obtain ⟨p, hp⟩ := hall h (by simp)
    obtain ⟨o, ho⟩ := windForecastHour_ok asset 10 h p hp
    obtain ⟨outs, houts, hlen⟩ := ih fun hour hm => hall hour (by simp [hm])
    have houts' : t.mapM (windForecastHour asset 10) = Except.ok outs := by
      rwa [generateWindForecast] at houts
    refine ⟨o :: outs, ?_, by simp [hlen]⟩
    rw [generateWindForecast, List.mapM_cons, ho, exceptOk_bind, houts',
      exceptOk_bind]
    rfl

/-- C2, counterexample: a wind configuration with capacity −1 and hub height
−1 is not rejected: on a series whose only sample has no wind-speed reading,
`generateWindForecast` returns a full output (power 0, capacity 0) instead of
an `InvalidConfiguration` error, and no error at all is raised for the
non-positive capacity. -/
theorem C2_counterexample :
    generateWindForecast badWindAsset [noWindHour] 10 = Except.ok [zeroOut] := by
  have h0 : windHourPower badWindAsset noWindHour 10 = Except.ok (some 0) := rfl
  have hcap : ¬ (0 : ℚ) < badWindAsset.ratedCapacity := by norm_num [badWindAsset]
  have hf : windForecastHour badWindAsset 10 noWindHour = Except.ok zeroOut := by
    rw [windForecastHour, h0, exceptOk_bind]
    show Except.ok _ = _
    rw [if_neg hcap]
    exact congrArg Except.ok (by norm_num [noWindHour, zeroOut])
  rw [generateWindForecast, List.mapM_cons, hf, exceptOk_bind]
  rfl

/-- C2 (amended): the only configuration validation in the forecast paths is
the positive-height check inside `extrapolateWindSpeed`, and it fires lazily:
with a non-positive hub height `generateWindForecast` throws
"Heights must be positive values" (aborting with no partial output value)
when some sample carries a present positive wind speed, while every series
in which no sample has a present positive wind speed — every wind speed
absent, `null`, `NaN` or non-positive — yields a full output, one record per
sample, for every configuration, non-positive heights and capacities
included; a positive hub height always yields a full output; and
`generateSolarForecast` performs no configuration validation at all,
returning one output per input sample for every configuration. -/
theorem C2_height_validation_is_lazy :
    (∀ (asset : WindAsset) (wd : List HourlyWeatherData),
      asset.hubHeight ≤ 0 →
      (∃ hour ∈ wd, ∃ ws : ℚ, getField hour "windSpeed" = some ws ∧ 0 < ws) →
      generateWindForecast asset wd 10 =
        Except.error "Heights must be positive values") ∧
    (∀ (asset : WindAsset) (wd : List HourlyWeatherData),
      (∀ hour ∈ wd, ∀ ws : ℚ, getField hour "windSpeed" = some ws → ws ≤ 0) →
      ∃ outs, generateWindForecast asset wd 10 = Except.ok outs ∧
        outs.length = wd.length) ∧
    (∀ (asset : WindAsset) (wd : List HourlyWeatherData),
      0 < asset.hubHeight →
      ∃ outs, generateWindForecast asset wd 10 = Except.ok outs ∧
        outs.length = wd.length) ∧
    (∀ (asset : SolarAsset) (wd : List HourlyWeatherData),
      (generateSolarForecast asset wd).length = wd.length) := by
  refine ⟨?_, ?_, ?_, ?_⟩
  · intro asset wd hhub hex
    revert hex
    induction wd with
    | nil =>
      intro hex
      obtain ⟨hour, hmem, _⟩ := hex
      cases hmem
    | cons h t ih =>
      intro hex
      rw [generateWindForecast, List.mapM_cons]
      obtain ⟨hour, hmem, ws, hws, hpos⟩ := hex
      have herr : ∀ w : ℚ, getField h "windSpeed" = some w → 0 < w →
          (windForecastHour asset 10 h >>= fun b =>
            (t.mapM (windForecastHour asset 10)) >>= fun bs =>
              pure (b :: bs)) = Except.error "Heights must be positive values" := by
        intro w hw hwpos
        have : windForecastHour asset 10 h =
            Except.error "Heights must be positive values" := by
          rw [windForecastHour, windHourPower_bad_height asset h hhub w hw hwpos]
          rfl
        rw [this, exceptError_bind]
      rcases List.mem_cons.mp hmem with rfl | hmem'
      · exact herr ws hws hpos
      · by_cases hcase : ∃ w : ℚ, getField h "windSpeed" = some w ∧ 0 < w
        · obtain ⟨w, hw, hwpos⟩ := hcase
          exact herr w hw hwpos
        · push_neg at hcase
          obtain ⟨o, ho⟩ := windForecastHour_ok asset 10 h (some 0)
            (windHourPower_no_wind asset h 10 fun w hw => hcase w hw)
          rw [ho, exceptOk_bind]
          have ht : t.mapM (windForecastHour asset 10) =
              Except.error "Heights must be positive values" := by
            have := ih ⟨hour, hmem', ws, hws, hpos⟩
            rwa [generateWindForecast] at this
          rw [ht, exceptError_bind]
  · intro asset wd hno
    exact generateWindForecast_ok_of_hours asset wd fun hour hm =>
      ⟨some 0, windHourPower_no_wind asset hour 10 fun ws hws =>
        hno hour hm ws hws⟩
  · intro asset wd hhub
    exact generateWindForecast_ok_of_hours asset wd fun hour _ =>
      windHourPower_ok_height asset hour hhub
  · intro asset wd
    simp [generateSolarForecast]

/-- C2, witness: the amended theorem at concrete inputs — the bad-height
configuration errors on a windy sample but returns a full output on the
windless one-sample series, a positive-height configuration succeeds, and
the solar forecast is index-aligned. -/
theorem C2_height_validation_is_lazy_witness :
    generateWindForecast badWindAsset [windyHour] 10 =
      Except.error "Heights must be positive values" ∧
    (∃ outs, generateWindForecast badWindAsset [noWindHour] 10 =
        Except.ok outs ∧ outs.length = 1) ∧
    (∃ outs, generateWindForecast { ratedCapacity := 2, hubHeight := 100 }
        [noWindHour] 10 = Except.ok outs ∧ outs.length = 1) ∧
    (generateSolarForecast { dcCapacity := 7, systemLosses := none }
        [noWindHour]).length = 1 :=
  ⟨C2_height_validation_is_lazy.1 badWindAsset [windyHour]
      (by norm_num [badWindAsset])
      ⟨windyHour, by simp, 5, rfl, by norm_num⟩,
   C2_height_validation_is_lazy.2.1 badWindAsset [noWindHour]
      (by
        intro hour hm ws hws
        simp only [List.mem_singleton] at hm
        subst hm
        cases hws),
   C2_height_validation_is_lazy.2.2.1 _ [noWindHour] (by norm_num),
   C2_height_validation_is_lazy.2.2.2 _ [noWindHour]⟩

/-! ## Claim C7 -/

/-- Monotonicity of the guarded linear clamp in its argument, for either sign
of the coefficient. -/
theorem ite_max_linear_mono (K : ℚ) {g1 g2 : ℚ} (h : g1 ≤ g2) :
    (if 0 < g1 then max 0 (g1 * K) else 0) ≤
      (if 0 < g2 then max 0 (g2 * K) else 0) := by
  rcases le_or_lt g1 0 with h1 | h1
  · rw [if_neg (not_lt.mpr h1)]
    split
    · exact le_max_left _ _
    · exact le_refl _
  · rw [if_pos h1, if_pos (lt_of_lt_of_le h1 h)]
    rcases le_or_lt 0 K with hK | hK
    · exact max_le_max (le_refl 0) (by nlinarith)
    · rw [max_eq_left (by nlinarith : g1 * K ≤ 0),
        max_eq_left (by nlinarith : g2 * K ≤ 0)]

/-- Without a temperature reading, the per-hour solar power is the clamp of a
fixed linear function of the irradiance. -/
theorem solarHourPower_linear_none (asset : SolarAsset) (g : ℚ) :
    solarHourPower asset (mkSolarHour g none) =
      (if 0 < g then
        max 0 (g * (asset.dcCapacity * ((100 - asset.systemLosses.getD 14) / 100) / 1000))
       else 0) := by
  have h1 : getField (mkSolarHour g none) "solarIrradiance" = some g := rfl
  have h2 : presentField (mkSolarHour g none) "cloudCover" = none := rfl
  have h3 : presentField (mkSolarHour g none) "temperature" = none := rfl
  rw [solarHourPower]
  simp only [solarHourPowerJs, h1, h2, h3]
  split
  · rw [Option.getD_some, calculateSolarPower]
    exact congrArg (max 0) (by ring)
  · rfl

/-- With a cloud-cover reading and no temperature reading, the per-hour solar
power is the clamp of a fixed linear function of the irradiance. -/
theorem solarHourPower_linear_some (asset : SolarAsset) (c g : ℚ) :
    solarHourPower asset (mkSolarHour g (some c)) =
      (if 0 < g then
        max 0 (g * ((1 - 8/10 * c / 100) *
          (asset.dcCapacity * ((100 - asset.systemLosses.getD 14) / 100) / 1000)))
       else 0) := by
  have h1 : getField (mkSolarHour g (some c)) "solarIrradiance" = some g := rfl
  have h2 : presentField (mkSolarHour g (some c)) "cloudCover" =
    some (JsVal.num c) := rfl
  have h3 : presentField (mkSolarHour g (some c)) "temperature" = none := rfl
  rw [solarHourPower]
  simp only [solarHourPowerJs, h1, h2, h3]
  split
  · rw [Option.getD_some, adjustIrradianceForClouds, calculateSolarPower]
    exact congrArg (max 0) (by ring)
  · rfl

/-- C4, counterexample: with an ambient temperature reading of 25 °C present
(all other inputs fixed), the per-hour solar power is not non-decreasing in
irradiance: at 4000 W/m² the 1 kW system yields 1.72 kW but at 8000 W/m² the
temperature derate reaches zero, so power(4000) > power(8000) although
4000 ≤ 8000; the clamped forecast output power inherits the violation. -/
theorem C4_counterexample :
    solarHourPower unitSolarAsset (solarTempHour 8000) <
      solarHourPower unitSolarAsset (solarTempHour 4000) ∧
    (solarForecastHour unitSolarAsset (solarTempHour 8000)).power <
      (solarForecastHour unitSolarAsset (solarTempHour 4000)).power ∧
    (4000 : ℚ) ≤ 8000 := by
  have hval : ∀ g : ℚ, solarHourPower unitSolarAsset (solarTempHour g) =
      (if 0 < g then
        applyTemperatureCorrection (calculateSolarPower g 1 14) 25 g else 0) := by
    intro g
    have ha : getField (solarTempHour g) "solarIrradiance" = some g := rfl
    have hb : presentField (solarTempHour g) "cloudCover" = none := rfl
    have hc : presentField (solarTempHour g) "temperature" =
      some (JsVal.num 25) := rfl
    rw [solarHourPower]
    simp only [solarHourPowerJs, ha, hb, hc]
    split
    · rfl
    · rfl
  have h8 : solarHourPower unitSolarAsset (solarTempHour 8000) = 0 := by
    rw [hval]
    norm_num [calculateSolarPower, applyTemperatureCorrection]
  have h4 : solarHourPower unitSolarAsset (solarTempHour 4000) = 43/25 := by
    rw [hval]
    norm_num [calculateSolarPower, applyTemperatureCorrection]
  refine ⟨by rw [h8, h4]; norm_num, ?_, by norm_num⟩
  rw [solarForecastHour, solarForecastHour, h8, h4]
  have : ((max 0 (0 : ℚ) : ℚ) : ℝ) < ((max 0 (43/25 : ℚ) : ℚ) : ℝ) := by
    exact_mod_cast by norm_num
  exact this

/-- C4 (amended): for a fixed configuration and a fixed present-or-absent
cloud-cover value, with no ambient temperature reading the per-hour solar
power is non-decreasing in the present irradiance value; with an ambient
temperature present the temperature derate can invert the order (see the
counterexample), so the monotonicity claim holds only without temperature. -/
theorem C4_solar_monotone_without_temperature (asset : SolarAsset)
    (cc : Option ℚ) (g1 g2 : ℚ) (hg : g1 ≤ g2) :
    solarHourPower asset (mkSolarHour g1 cc) ≤
      solarHourPower asset (mkSolarHour g2 cc) := by
  rcases cc with _ | c
  · rw [solarHourPower_linear_none, solarHourPower_linear_none]
    exact ite_max_linear_mono _ hg
  · rw [solarHourPower_linear_some, solarHourPower_linear_some]
    exact ite_max_linear_mono _ hg

/-- C4, witness: monotonicity at irradiances 400 ≤ 800 for the 7 kW system
with absent cloud cover. -/
theorem C4_solar_monotone_without_temperature_witness :
    solarHourPower stdSolarAsset (mkSolarHour 400 none) ≤
      solarHourPower stdSolarAsset (mkSolarHour 800 none) :=
  C4_solar_monotone_without_temperature stdSolarAsset none 400 800 (by norm_num)

/-! ## Claim C5 -/

/-- The cube is strictly monotone on all of ℝ. -/
theorem cube_lt_cube {x y : ℝ} (h : x < y) : x ^ 3 < y ^ 3 :=
  Odd.strictMono_pow (R := ℝ) ⟨1, by norm_num⟩ h

/-- The cube is monotone on all of ℝ. -/
theorem cube_le_cube {x y : ℝ} (h : x ≤ y) : x ^ 3 ≤ y ^ 3 :=
  (Odd.strictMono_pow (R := ℝ) ⟨1, by norm_num⟩).monotone h

/-- Region 2 of the power curve in closed form. -/
theorem calculateWindPower_region2 (asset : WindAsset) (u : ℝ)
    (hrc : (asset.ratedSpeed.getD 12 : ℚ) ≤ asset.cutOutSpeed.getD 25)
    (h1 : ((asset.cutInSpeed.getD 3 : ℚ) : ℝ) ≤ u)
    (h2 : u < ((asset.ratedSpeed.getD 12 : ℚ) : ℝ)) :
    calculateWindPower u asset =
      max 0 (min (asset.ratedCapacity : ℝ) ((asset.ratedCapacity : ℝ) *
        ((u ^ 3 - ((asset.cutInSpeed.getD 3 : ℚ) : ℝ) ^ 3) /
         (((asset.ratedSpeed.getD 12 : ℚ) : ℝ) ^ 3 -
          ((asset.cutInSpeed.getD 3 : ℚ) : ℝ) ^ 3)))) := by
  have hco : ((asset.ratedSpeed.getD 12 : ℚ) : ℝ) ≤
      ((asset.cutOutSpeed.getD 25 : ℚ) : ℝ) := by exact_mod_cast hrc
  simp only [calculateWindPower]
  rw [if_neg (not_lt.mpr h1), if_neg (not_lt.mpr (le_trans h2.le hco)),
    if_neg (not_le.mpr h2)]

/-- C5: under `cutIn < rated ≤ cutOut` and a positive rated capacity, the
four-region power curve holds exactly: 0 below cut-in and above cut-out; on
`[cutIn, rated)` the clamped cubic formula, which stays in
`[0, ratedCapacity]` and is non-decreasing; exactly `ratedCapacity` on
`[rated, cutOut]`. -/
theorem C5_wind_power_curve (asset : WindAsset) (v w : ℝ)
    (hcr : (asset.cutInSpeed.getD 3 : ℚ) < asset.ratedSpeed.getD 12)
    (hrc : (asset.ratedSpeed.getD 12 : ℚ) ≤ asset.cutOutSpeed.getD 25)
    (hcap : 0 < asset.ratedCapacity) :
    (v < ((asset.cutInSpeed.getD 3 : ℚ) : ℝ) → calculateWindPower v asset = 0) ∧
    (((asset.cutOutSpeed.getD 25 : ℚ) : ℝ) < v → calculateWindPower v asset = 0) ∧
    (((asset.cutInSpeed.getD 3 : ℚ) : ℝ) ≤ v →
      v < ((asset.ratedSpeed.getD 12 : ℚ) : ℝ) →
      calculateWindPower v asset =
        max 0 (min (asset.ratedCapacity : ℝ) ((asset.ratedCapacity : ℝ) *
          ((v ^ 3 - ((asset.cutInSpeed.getD 3 : ℚ) : ℝ) ^ 3) /
           (((asset.ratedSpeed.getD 12 : ℚ) : ℝ) ^ 3 -
            ((asset.cutInSpeed.getD 3 : ℚ) : ℝ) ^ 3)))) ∧
      0 ≤ calculateWindPower v asset ∧
      calculateWindPower v asset ≤ (asset.ratedCapacity : ℝ)) ∧
    (((asset.cutInSpeed.getD 3 : ℚ) : ℝ) ≤ v → v ≤ w →
      w < ((asset.ratedSpeed.getD 12 : ℚ) : ℝ) →
      calculateWindPower v asset ≤ calculateWindPower w asset) ∧
    (((asset.ratedSpeed.getD 12 : ℚ) : ℝ) ≤ v →
      v ≤ ((asset.cutOutSpeed.getD 25 : ℚ) : ℝ) →
      calculateWindPower v asset = (asset.ratedCapacity : ℝ)) := by
  have hci_r : ((asset.cutInSpeed.getD 3 : ℚ) : ℝ) <
      ((asset.ratedSpeed.getD 12 : ℚ) : ℝ) := by exact_mod_cast hcr
  have hr_co : ((asset.ratedSpeed.getD 12 : ℚ) : ℝ) ≤
      ((asset.cutOutSpeed.getD 25 : ℚ) : ℝ) := by exact_mod_cast hrc
  have hcapR : (0 : ℝ) < (asset.ratedCapacity : ℝ) := by exact_mod_cast hcap
  have hden : (0 : ℝ) < ((asset.ratedSpeed.getD 12 : ℚ) : ℝ) ^ 3 -
      ((asset.cutInSpeed.getD 3 : ℚ) : ℝ) ^ 3 :=
    sub_pos.mpr (cube_lt_cube hci_r)
  refine ⟨?_, ?_, ?_, ?_, ?_⟩
  · intro hv
    simp only [calculateWindPower]
    rw [if_pos hv]
  · intro hv
    have hnotci : ¬ v < ((asset.cutInSpeed.getD 3 : ℚ) : ℝ) :=
      not_lt.mpr (le_trans (le_trans hci_r.le hr_co) hv.le)
    simp only [calculateWindPower]
    rw [if_neg hnotci, if_pos hv]
  · intro h1 h2
    refine ⟨calculateWindPower_region2 asset v hrc h1 h2, ?_, ?_⟩
    · rw [calculateWindPower_region2 asset v hrc h1 h2]
      exact le_max_left _ _
    · rw [calculateWindPower_region2 asset v hrc h1 h2]
      exact max_le hcapR.le (min_le_left _ _)
  · intro h1 h2 h3
    rw [calculateWindPower_region2 asset v hrc h1 (lt_of_le_of_lt h2 h3),
      calculateWindPower_region2 asset w hrc (le_trans h1 h2) h3]
    refine max_le_max (le_refl 0) (min_le_min (le_refl _) ?_)
    refine mul_le_mul_of_nonneg_left ?_ hcapR.le
    exact (div_le_div_iff_of_pos_right hden).mpr (by linarith [cube_le_cube h2])
  · intro h1 h2
    have hnotci : ¬ v < ((asset.cutInSpeed.getD 3 : ℚ) : ℝ) :=
      not_lt.mpr (le_trans hci_r.le h1)
    simp only [calculateWindPower]
    rw [if_neg hnotci, if_neg (not_lt.mpr h2), if_pos (le_trans h1 (le_refl v) : _ ≤ v)]

/-- C5, witness: the four regions at the default-threshold 2 MW turbine —
below cut-in, above cut-out, and at rated speed. -/
theorem C5_wind_power_curve_witness :
    calculateWindPower 1 stdWindAsset = 0 ∧
    calculateWindPower 26 stdWindAsset = 0 ∧
    calculateWindPower 13 stdWindAsset = (stdWindAsset.ratedCapacity : ℝ) := by
  have hcr : (stdWindAsset.cutInSpeed.getD 3 : ℚ) < stdWindAsset.ratedSpeed.getD 12 := by
    norm_num [stdWindAsset]
  have hrc : (stdWindAsset.ratedSpeed.getD 12 : ℚ) ≤ stdWindAsset.cutOutSpeed.getD 25 := by
    norm_num [stdWindAsset]
  have hcap : (0 : ℚ) < stdWindAsset.ratedCapacity := by norm_num [stdWindAsset]
  exact ⟨(C5_wind_power_curve stdWindAsset 1 1 hcr hrc hcap).1
      (by norm_num [stdWindAsset]),
    (C5_wind_power_curve stdWindAsset 26 26 hcr hrc hcap).2.1
      (by norm_num [stdWindAsset]),
    (C5_wind_power_curve stdWindAsset 13 13 hcr hrc hcap).2.2.2.2
      (by norm_num [stdWindAsset]) (by norm_num [stdWindAsset])⟩

/-! ## Claim C9 -/

/-- A list of non-negative rationals with zero sum is all zeros. -/
theorem sum_nonneg_eq_zero {l : List ℚ} (hpos : ∀ x ∈ l, 0 ≤ x)
    (hs : l.sum = 0) : ∀ x ∈ l, x = 0 := by
  induction l with
  | nil => simp
  | cons a t ih =>
    have ha := hpos a (by simp)
    have ht : 0 ≤ t.sum := List.sum_nonneg fun x hx => hpos x (by simp [hx])
    have hsum : a + t.sum = 0 := by simpa using hs
    have ha0 : a = 0 := by linarith
    intro x hx
    rcases List.mem_cons.mp hx with rfl | hx'
    · exact ha0
    · exact ih (fun y hy => hpos y (by simp [hy])) (by linarith) x hx'

/-- Zero variance forces every element to equal the mean. -/
theorem listVariance_zero (l : List ℚ) (h : listVariance l = 0) :
    ∀ v ∈ l, v = listMean l := by
  intro v hv
  have hne : l ≠ [] := fun hnil => by rw [hnil] at hv; cases hv
  have hlen : ((l.length : ℚ)) ≠ 0 :=
    Nat.cast_ne_zero.mpr fun h0 => hne (List.length_eq_zero.mp h0)
  have hS : (l.map (fun v => (v - listMean l) ^ 2)).sum = 0 := by
    rw [listVariance] at h
    rcases div_eq_zero_iff.mp h with h' | h'
    · exact h'
    · exact absurd h' hlen
  have hsq : (v - listMean l) ^ 2 = 0 := by
    refine sum_nonneg_eq_zero ?_ hS _ (List.mem_map_of_mem _ hv)
    intro x hx
    obtain ⟨a, _, rfl⟩ := List.mem_map.mp hx
    positivity
  have := sq_eq_zero_iff.mp hsq
  linarith [this]

/-- The standard deviation stored by `calculateStatistics` is the square root
of the population variance of the valid values (also on the empty-input
branch, where both sides are 0). -/
theorem calculateStatistics_stdDev (values : List (Option ℚ)) :
    (calculateStatistics values).stdDev =
      Real.sqrt (listVariance (validValues values)) := by
  simp only [calculateStatistics]
  split
  · next hlen =>
    have hnil : validValues values = [] := List.length_eq_zero.mp hlen
    show (0 : ℝ) = _
    rw [hnil]
    simp [listVariance, listMean]
  · rfl

/-- The mean stored by `calculateStatistics` on a series with a valid value. -/
theorem calculateStatistics_mean (values : List (Option ℚ))
    (h : validValues values ≠ []) :
    (calculateStatistics values).mean = listMean (validValues values) := by
  simp only [calculateStatistics]
  rw [if_neg fun hlen => h (List.length_eq_zero.mp hlen)]

/-- C9: when the valid values of a series have zero variance (equivalently,
standard deviation 0), `detectAnomalies` returns the empty list for every
reporting threshold — the z-score division by the zero standard deviation
never flags a record. -/
theorem C9_zero_variance_no_anomalies (timestamps : List String)
    (values : List (Option ℚ)) (variableName : String) (threshold : ℚ)
    (h : listVariance (validValues values) = 0) :
    detectAnomalies timestamps values variableName threshold = [] := by
  simp only [detectAnomalies]
  refine List.filterMap_eq_nil_iff.mpr ?_
  intro i hi
  have hi' : i < values.length := List.mem_range.mp hi
  rcases hv : values.getD i none with _ | v
  · simp only [hv]
  · have hgetElem : values[i] = some v := by
      have := hv
      rwa [List.getD_eq_getElem?_getD, List.getElem?_eq_getElem hi',
        Option.getD_some] at this
    have hmemvv : v ∈ validValues values := by
      refine List.mem_filterMap.mpr ⟨some v, ?_, rfl⟩
      rw [← hgetElem]
      exact List.getElem_mem hi'
    have hvvne : validValues values ≠ [] := fun hnil => by
      rw [hnil] at hmemvv
      cases hmemvv
    have hsd : (calculateStatistics values).stdDev = 0 := by
      rw [calculateStatistics_stdDev, h]
      simp
    have hmean : v = (calculateStatistics values).mean := by
      rw [calculateStatistics_mean values hvvne]
      exact listVariance_zero _ h v hmemvv
    simp only [hv, if_pos hsd]
    rw [if_neg]
    rw [← hmean]
    simp

/-- C9, witness: the constant series [5, 5] (variance 0) produces no anomaly
at the default threshold 3. -/
theorem C9_zero_variance_no_anomalies_witness :
    detectAnomalies ["a", "b"] [some 5, some 5] "x" 3 = [] :=
  C9_zero_variance_no_anomalies ["a", "b"] [some 5, some 5] "x" 3 (by
    have hv : validValues [some 5, some 5] = [5, 5] := rfl
    rw [hv]
    norm_num [listVariance, listMean])

/-! ## Claim C10 -/

/-- The sort used by `calculateStatistics` is sorted ascending. -/
theorem sortedValid_sorted (values : List (Option ℚ)) :
    List.Sorted (· ≤ ·) (sortedValid values) := by
  rw [sortedValid]
  exact List.sorted_mergeSort' _

/-- The sort used by `calculateStatistics` is a permutation of the valid
values. -/
theorem sortedValid_perm (values : List (Option ℚ)) :
    List.Perm (sortedValid values) (validValues values) := by
  rw [sortedValid]
  exact List.mergeSort_perm _ _

/-- The median stored by `calculateStatistics` on a series with a valid
value. -/
theorem calculateStatistics_median (values : List (Option ℚ))
    (h : validValues values ≠ []) :
    (calculateStatistics values).median =
      (sortedValid values).getD ((sortedValid values).length / 2) 0 := by
  simp only [calculateStatistics]
  rw [if_neg fun hlen => h (List.length_eq_zero.mp hlen)]

/-- C10: for a non-zero even valid count n, the median is the element at
index n/2 of the ascending-sorted valid values — the upper of the two middle
values — and on the concrete input [1, 2] it is 2, differing from both the
arithmetic mean 1.5 of the two middle values and the nearest-rank 50th
percentile (which picks index ⌈0.5·n⌉ − 1 = n/2 − 1, the lower middle). -/
theorem C10_even_median_upper_middle :
    (∀ (values : List (Option ℚ)) (n : ℕ), (validValues values).length = n →
      Even n → 0 < n →
      List.Sorted (· ≤ ·) (sortedValid values) ∧
      List.Perm (sortedValid values) (validValues values) ∧
      (calculateStatistics values).median = (sortedValid values).getD (n / 2) 0) ∧
    (calculateStatistics [some 1, some 2]).median = 2 ∧
    (calculateStatistics [some 1, some 2]).median ≠ (1 + 2) / 2 ∧
    (calculateStatistics [some 1, some 2]).median ≠
      percentileOf (sortedValid [some 1, some 2]) 50 := by
  have hmain : ∀ (values : List (Option ℚ)) (n : ℕ),
      (validValues values).length = n → Even n → 0 < n →
      List.Sorted (· ≤ ·) (sortedValid values) ∧
      List.Perm (sortedValid values) (validValues values) ∧
      (calculateStatistics values).median =
        (sortedValid values).getD (n / 2) 0 := by
    intro values n hn heven hpos
    have hne : validValues values ≠ [] := by
      intro hnil
      rw [hnil] at hn
      simp at hn
      omega
    have hlen : (sortedValid values).length = n := by
      rw [(sortedValid_perm values).length_eq, hn]
    exact ⟨sortedValid_sorted values, sortedValid_perm values, by
      rw [calculateStatistics_median values hne, hlen]⟩
  have hs : sortedValid [some 1, some 2] = [1, 2] := by
    rw [sortedValid]
    exact List.mergeSort_eq_self (by decide)
  have hmed : (calculateStatistics [some 1, some 2]).median = 2 := by
    have h := (hmain [some 1, some 2] 2 rfl (by decide) (by decide)).2.2
    rw [h, hs]
    rfl
  refine ⟨hmain, hmed, ?_, ?_⟩
  · rw [hmed]
    norm_num
  · rw [hmed, hs]
    have hp : percentileOf [1, 2] 50 = 1 := by
      simp only [percentileOf]
      norm_num
    rw [hp]
    norm_num

/-- C10, witness: the main statement at the four-element series
[3, 1, 4, 1]. -/
theorem C10_even_median_upper_middle_witness :
    List.Sorted (· ≤ ·) (sortedValid [some 3, some 1, some 4, some 1]) ∧
    List.Perm (sortedValid [some 3, some 1, some 4, some 1])
      (validValues [some 3, some 1, some 4, some 1]) ∧
    (calculateStatistics [some 3, some 1, some 4, some 1]).median =
      (sortedValid [some 3, some 1, some 4, some 1]).getD 2 0 :=
  C10_even_median_upper_middle.1 [some 3, some 1, some 4, some 1] 4 rfl
    (by decide) (by decide)

/-! ## Claim C8 -/

/-- The accumulator `sumXSquared` is the variance of the first components
scaled by the pair count. -/
theorem pearsonSumXSquared_zero (pairs : List (ℚ × ℚ))
    (h : listVariance (pairs.map Prod.fst) = 0) :
    pearsonSumXSquared pairs = 0 := by
  rcases eq_or_ne pairs [] with rfl | hne
  · rfl
  · have hlen : (((pairs.map Prod.fst).length : ℕ) : ℚ) ≠ 0 := by
      simp only [List.length_map, Nat.cast_ne_zero]
      exact fun h0 => hne (List.length_eq_zero.mp h0)
    have hS : ((pairs.map Prod.fst).map
        (fun v => (v - listMean (pairs.map Prod.fst)) ^ 2)).sum = 0 := by
      rw [listVariance] at h
      rcases div_eq_zero_iff.mp h with h' | h'
      · exact h'
      · exact absurd h' hlen
    rw [pearsonSumXSquared]
    rw [← hS, List.map_map]
    refine congrArg List.sum (List.map_congr_left fun p _ => ?_)
    show (p.1 - _) * (p.1 - _) = (p.1 - _) ^ 2
    ring

/-- The accumulator `sumYSquared` is the variance of the second components
scaled by the pair count. -/
theorem pearsonSumYSquared_zero (pairs : List (ℚ × ℚ))
    (h : listVariance (pairs.map Prod.snd) = 0) :
    pearsonSumYSquared pairs = 0 := by
  rcases eq_or_ne pairs [] with rfl | hne
  · rfl
  · have hlen : (((pairs.map Prod.snd).length : ℕ) : ℚ) ≠ 0 := by
      simp only [List.length_map, Nat.cast_ne_zero]
      exact fun h0 => hne (List.length_eq_zero.mp h0)
    have hS : ((pairs.map Prod.snd).map
        (fun v => (v - listMean (pairs.map Prod.snd)) ^ 2)).sum = 0 := by
      rw [listVariance] at h
      rcases div_eq_zero_iff.mp h with h' | h'
      · exact h'
      · exact absurd h' hlen
    rw [pearsonSumYSquared]
    rw [← hS, List.map_map]
    refine congrArg List.sum (List.map_congr_left fun p _ => ?_)
    show (p.2 - _) * (p.2 - _) = (p.2 - _) ^ 2
    ring

/-- C8: Pearson correlation degrades gracefully — fewer than 3 valid pairs
yields exactly (r = 0, p = 1), and with at least 3 pairs a zero-variance side
yields r = 0 (the `isFinite` guard result, never NaN; the source in fact also
stores p = 1 there). -/
theorem C8_pearson_degenerate :
    (∀ x y : List (Option ℚ), (validPairs x y).length < 3 →
      pearsonCorrelation x y = { r := 0, pValue := 1 }) ∧
    (∀ x y : List (Option ℚ), 3 ≤ (validPairs x y).length →
      (listVariance ((validPairs x y).map Prod.fst) = 0 ∨
       listVariance ((validPairs x y).map Prod.snd) = 0) →
      (pearsonCorrelation x y).r = 0 ∧
      pearsonCorrelation x y = { r := 0, pValue := 1 }) := by
  constructor
  · intro x y h
    simp only [pearsonCorrelation]
    rw [if_pos h]
  · intro x y h3 hvar
    have hprod : pearsonSumXSquared (validPairs x y) *
        pearsonSumYSquared (validPairs x y) = 0 := by
      rcases hvar with h | h
      · rw [pearsonSumXSquared_zero _ h, zero_mul]
      · rw [pearsonSumYSquared_zero _ h, mul_zero]
    have : pearsonCorrelation x y = { r := 0, pValue := 1 } := by
      simp only [pearsonCorrelation]
      rw [if_neg (not_lt.mpr h3), if_pos hprod]
    exact ⟨by rw [this], this⟩

/-- C8, witness: the empty pairing and a constant-x pairing of length 3. -/
theorem C8_pearson_degenerate_witness :
    pearsonCorrelation [] [] = { r := 0, pValue := 1 } ∧
    (pearsonCorrelation [some 1, some 1, some 1]
      [some 1, some 2, some 3]).r = 0 :=
  ⟨C8_pearson_degenerate.1 [] [] (by decide),
   (C8_pearson_degenerate.2 [some 1, some 1, some 1] [some 1, some 2, some 3]
     (by decide) (Or.inl (by
       have hv : (validPairs [some 1, some 1, some 1]
           [some 1, some 2, some 3]).map Prod.fst = [1, 1, 1] := rfl
       rw [hv]
       norm_num [listVariance, listMean]))).1⟩

/-! ## Claim C6 -/

/-- The pairwise-complete pairs of (y, x) are the swapped pairs of (x, y). -/
theorem validPairs_swap (x y : List (Option ℚ)) :
    validPairs y x = (validPairs x y).map Prod.swap := by
  rw [validPairs, validPairs, ← List.zip_swap, List.filterMap_map,
    List.map_filterMap]
  refine congrArg (fun f => List.filterMap f (x.zip y)) ?_
  funext p
  rcases p with ⟨_ | a, _ | b⟩ <;> rfl

/-- First components of the swapped pairs are the second components. -/
theorem map_fst_swap (pairs : List (ℚ × ℚ)) :
    (pairs.map Prod.swap).map Prod.fst = pairs.map Prod.snd := by
  rw [List.map_map]
  rfl

/-- Second components of the swapped pairs are the first components. -/
theorem map_snd_swap (pairs : List (ℚ × ℚ)) :
    (pairs.map Prod.swap).map Prod.snd = pairs.map Prod.fst := by
  rw [List.map_map]
  rfl

/-- The cross-term accumulator is symmetric under swapping the series. -/
theorem pearsonNumerator_swap (pairs : List (ℚ × ℚ)) :
    pearsonNumerator (pairs.map Prod.swap) = pearsonNumerator pairs := by
  rw [pearsonNumerator, pearsonNumerator, map_fst_swap, map_snd_swap,
    List.map_map]
  refine congrArg List.sum (List.map_congr_left fun p _ => ?_)
  show (p.2 - listMean (pairs.map Prod.snd)) *
      (p.1 - listMean (pairs.map Prod.fst)) = _
  ring

/-- Swapping the series exchanges the two squared-deviation accumulators. -/
theorem pearsonSumXSquared_swap (pairs : List (ℚ × ℚ)) :
    pearsonSumXSquared (pairs.map Prod.swap) = pearsonSumYSquared pairs := by
  rw [pearsonSumXSquared, pearsonSumYSquared, map_fst_swap, List.map_map]
  refine congrArg List.sum (List.map_congr_left fun p _ => ?_)
  rfl

/-- Swapping the series exchanges the two squared-deviation accumulators. -/
theorem pearsonSumYSquared_swap (pairs : List (ℚ × ℚ)) :
    pearsonSumYSquared (pairs.map Prod.swap) = pearsonSumXSquared pairs := by
  rw [pearsonSumYSquared, pearsonSumXSquared, map_snd_swap, List.map_map]
  refine congrArg List.sum (List.map_congr_left fun p _ => ?_)
  rfl

/-- The function `pearsonCorrelation` is symmetric in its two series. -/
theorem pearsonCorrelation_symm (x y : List (Option ℚ)) :
    pearsonCorrelation y x = pearsonCorrelation x y := by
  simp only [pearsonCorrelation, validPairs_swap x y, List.length_map,
    pearsonNumerator_swap, pearsonSumXSquared_swap, pearsonSumYSquared_swap]
  rw [mul_comm (pearsonSumYSquared (validPairs x y))
      (pearsonSumXSquared (validPairs x y)),
    mul_comm ((pearsonSumYSquared (validPairs x y) : ℚ) : ℝ)
      ((pearsonSumXSquared (validPairs x y) : ℚ) : ℝ)]

/-- The squared-deviation accumulators are non-negative. -/
theorem pearsonSumXSquared_nonneg (pairs : List (ℚ × ℚ)) :
    0 ≤ pearsonSumXSquared pairs := by
  rw [pearsonSumXSquared]
  refine List.sum_nonneg ?_
  intro a ha
  obtain ⟨p, _, rfl⟩ := List.mem_map.mp ha
  exact mul_self_nonneg _

/-- The squared-deviation accumulators are non-negative. -/
theorem pearsonSumYSquared_nonneg (pairs : List (ℚ × ℚ)) :
    0 ≤ pearsonSumYSquared pairs := by
  rw [pearsonSumYSquared]
  refine List.sum_nonneg ?_
  intro a ha
  obtain ⟨p, _, rfl⟩ := List.mem_map.mp ha
  exact mul_self_nonneg _

/-- Cauchy-Schwarz for the three loop accumulators of `pearsonCorrelation`. -/
theorem pearson_numerator_sq_le (pairs : List (ℚ × ℚ)) :
    pearsonNumerator pairs ^ 2 ≤
      pearsonSumXSquared pairs * pearsonSumYSquared pairs := by
  have conv : ∀ f : ℚ × ℚ → ℚ,
      (pairs.map f).sum = ∑ i : Fin pairs.length, f (pairs.get i) := by
    intro f
    conv_lhs => rw [← List.ofFn_get pairs]
    rw [List.map_ofFn, List.sum_ofFn]
    rfl
  rw [pearsonNumerator, pearsonSumXSquared, pearsonSumYSquared,
    conv, conv, conv]
  have cs := Finset.sum_mul_sq_le_sq_mul_sq Finset.univ
    (fun i : Fin pairs.length =>
      (pairs.get i).1 - listMean (pairs.map Prod.fst))
    (fun i : Fin pairs.length =>
      (pairs.get i).2 - listMean (pairs.map Prod.snd))
  simpa only [pow_two] using cs

/-- The correlation coefficient returned by `pearsonCorrelation` always lies
in [−1, 1]. -/
theorem pearson_r_abs_le_one (x y : List (Option ℚ)) :
    |(pearsonCorrelation x y).r| ≤ 1 := by
  simp only [pearsonCorrelation]
  split
  · norm_num
  · split
    · norm_num
    · next hprod =>
      have hX := pearsonSumXSquared_nonneg (validPairs x y)
      have hY := pearsonSumYSquared_nonneg (validPairs x y)
      have hprod' : 0 < pearsonSumXSquared (validPairs x y) *
          pearsonSumYSquared (validPairs x y) :=
        lt_of_le_of_ne (mul_nonneg hX hY) (Ne.symm hprod)
      have hprodR : (0 : ℝ) <
          ((pearsonSumXSquared (validPairs x y) : ℚ) : ℝ) *
          ((pearsonSumYSquared (validPairs x y) : ℚ) : ℝ) := by
        exact_mod_cast hprod'
      show |((pearsonNumerator (validPairs x y) : ℚ) : ℝ) /
        Real.sqrt (((pearsonSumXSquared (validPairs x y) : ℚ) : ℝ) *
          ((pearsonSumYSquared (validPairs x y) : ℚ) : ℝ))| ≤ 1
      rw [← sq_le_one_iff_abs_le_one, div_pow, Real.sq_sqrt hprodR.le,
        div_le_one hprodR]
      exact_mod_cast pearson_numerator_sq_le (validPairs x y)

/-- Reading an entry of a square `List.ofFn` matrix. -/
theorem matrixEntry_ofFn {n : ℕ} (f : Fin n → Fin n → ℝ) (i j : ℕ)
    (hi : i < n) (hj : j < n) :
    matrixEntry (List.ofFn fun a => List.ofFn fun b => f a b) i j =
      f ⟨i, hi⟩ ⟨j, hj⟩ := by
  rw [matrixEntry]
  have h1 : (List.ofFn fun a => List.ofFn fun b => f a b).getD i [] =
      List.ofFn fun b => f ⟨i, hi⟩ b := by
    rw [List.getD_eq_getElem?_getD, List.getElem?_eq_getElem (by simpa using hi),
      Option.getD_some]
    simp [List.getElem_ofFn]
  rw [h1, List.getD_eq_getElem?_getD,
    List.getElem?_eq_getElem (by simpa using hj), Option.getD_some]
  simp [List.getElem_ofFn]

/-- C6: the r-matrix and p-matrix of `calculateCorrelationMatrix` are square
over the ordered variable list, symmetric, carry exactly 1.0 (r) and 0 (p) on
the diagonal, and every r-entry lies in [−1, 1]. -/
theorem C6_correlation_matrix (data : List (String × List (Option ℚ))) :
    (calculateCorrelationMatrix data).variableNames = data.map Prod.fst ∧
    (calculateCorrelationMatrix data).matrix.length = data.length ∧
    (calculateCorrelationMatrix data).pValues.length = data.length ∧
    (∀ row ∈ (calculateCorrelationMatrix data).matrix,
      row.length = data.length) ∧
    (∀ row ∈ (calculateCorrelationMatrix data).pValues,
      row.length = data.length) ∧
    (∀ i j : ℕ, i < data.length → j < data.length →
      matrixEntry (calculateCorrelationMatrix data).matrix i j =
        matrixEntry (calculateCorrelationMatrix data).matrix j i ∧
      matrixEntry (calculateCorrelationMatrix data).pValues i j =
        matrixEntry (calculateCorrelationMatrix data).pValues j i ∧
      |matrixEntry (calculateCorrelationMatrix data).matrix i j| ≤ 1) ∧
    (∀ i : ℕ, i < data.length →
      matrixEntry (calculateCorrelationMatrix data).matrix i i = 1 ∧
      matrixEntry (calculateCorrelationMatrix data).pValues i i = 0) := by
  refine ⟨rfl, by simp [calculateCorrelationMatrix],
    by simp [calculateCorrelationMatrix], ?_, ?_, ?_, ?_⟩
  · intro row hrow
    simp only [calculateCorrelationMatrix] at hrow
    obtain ⟨i, hfi⟩ := Set.mem_range.mp ((List.mem_ofFn _ _).mp hrow)
    rw [← hfi]
    simp
  · intro row hrow
    simp only [calculateCorrelationMatrix] at hrow
    obtain ⟨i, hfi⟩ := Set.mem_range.mp ((List.mem_ofFn _ _).mp hrow)
    rw [← hfi]
    simp
  · intro i j hi hj
    simp only [calculateCorrelationMatrix]
    rw [matrixEntry_ofFn _ i j hi hj, matrixEntry_ofFn _ j i hj hi,
      matrixEntry_ofFn _ i j hi hj, matrixEntry_ofFn _ j i hj hi]
    by_cases hij : (⟨i, hi⟩ : Fin data.length) = ⟨j, hj⟩
    · rw [if_pos hij, if_pos hij.symm, if_pos hij, if_pos hij.symm]
      norm_num
    · rw [if_neg hij, if_neg (Ne.symm hij), if_neg hij, if_neg (Ne.symm hij)]
      refine ⟨?_, ?_, pearson_r_abs_le_one _ _⟩
      · exact congrArg PearsonResult.r
          (pearsonCorrelation_symm (data.get ⟨j, hj⟩).2 (data.get ⟨i, hi⟩).2)
      · exact congrArg PearsonResult.pValue
          (pearsonCorrelation_symm (data.get ⟨j, hj⟩).2 (data.get ⟨i, hi⟩).2)
  · intro i hi
    simp only [calculateCorrelationMatrix]
    rw [matrixEntry_ofFn _ i i hi hi, matrixEntry_ofFn _ i i hi hi]
    rw [if_pos rfl, if_pos rfl]
    norm_num

/-- C6, witness: the matrix on the two-variable map with empty series. -/
theorem C6_correlation_matrix_witness :
    matrixEntry (calculateCorrelationMatrix [("a", []), ("b", [])]).matrix 0 1 =
      matrixEntry (calculateCorrelationMatrix [("a", []), ("b", [])]).matrix 1 0 ∧
    |matrixEntry (calculateCorrelationMatrix [("a", []), ("b", [])]).matrix 0 1| ≤ 1 ∧
    matrixEntry (calculateCorrelationMatrix [("a", []), ("b", [])]).matrix 0 0 = 1 ∧
    matrixEntry (calculateCorrelationMatrix [("a", []), ("b", [])]).pValues 0 0 = 0 ∧
    (calculateCorrelationMatrix [("a", []), ("b", [])]).variableNames = ["a", "b"] := by
  have h := C6_correlation_matrix [("a", []), ("b", [])]
  have he := h.2.2.2.2.2.1 0 1 (by norm_num) (by norm_num)
  have hd := h.2.2.2.2.2.2 0 (by norm_num)
  exact ⟨he.1, he.2.2, hd.1, hd.2, h.1⟩
